import Mathlib

/-!
Verification development for the incremental ingestion and synchronization
engine of the brazilgrid repository.  The definitions below are a shallow
embedding of the Python source:

  - src/shared/handlers/clickhouse_handler.py (insert_parquet_incremental,
    insert_parquet)
  - src/shared/handlers/manifest.py (ManifestManager)
  - src/products/historico/pipelines/curtailment/backfill.py
    (insert_clickhouse_task, process_month, backfill_restricao)
  - src/products/historico/pipelines/curtailment/solar_conjunto.py
    (get_months_to_process, daily_restricao_solar_tm)

Rows are modelled by their din_instante timestamp (the only column the
filtering, conversion and watermark logic inspects) together with the
optional _source_file provenance column.  Naive local timestamps are
Python datetime values, modelled as calendar records; the fixed UTC-3
offset of America/Sao_Paulo (no DST since 2019) makes the BRT to UTC
conversion a pure 3 hour shift with calendar rollover.
-/

/-- A Python datetime: year, month, day, and minutes into the day.
Comparison is lexicographic, as for Python datetime objects. -/
structure PyDateTime where
  year : Nat
  month : Nat
  day : Nat
  mins : Nat
deriving DecidableEq, Repr

/-- Strict datetime order (Python datetime lt). -/
def pyLt (a b : PyDateTime) : Bool :=
  decide (a.year < b.year ∨ (a.year = b.year ∧ (a.month < b.month ∨
    (a.month = b.month ∧ (a.day < b.day ∨ (a.day = b.day ∧ a.mins < b.mins))))))

/-- Non-strict datetime order (Python datetime le). -/
def pyLe (a b : PyDateTime) : Bool :=
  pyLt a b || decide (a = b)

/-- Leap year rule of the Gregorian calendar. -/
def isLeap (y : Nat) : Bool :=
  (y % 4 == 0 && y % 100 != 0) || y % 400 == 0

/-- Number of days in a calendar month. -/
def daysInMonth (y m : Nat) : Nat :=
  if m = 2 then (if isLeap y then 29 else 28)
  else if m = 4 ∨ m = 6 ∨ m = 9 ∨ m = 11 then 30
  else 31

/-- BRT to UTC conversion performed by insert_parquet_incremental
(clickhouse_handler.py lines 99-103): the naive timestamp is localized to
America/Sao_Paulo (fixed UTC-3) and converted to UTC, that is, shifted
forward by 180 minutes with calendar rollover. -/
def brtToUtc (d : PyDateTime) : PyDateTime :=
  let m := d.mins + 180
  if m < 1440 then { d with mins := m }
  else
    let m2 := m - 1440
    if d.day < daysInMonth d.year d.month then ⟨d.year, d.month, d.day + 1, m2⟩
    else if d.month = 12 then ⟨d.year + 1, 1, 1, m2⟩
    else ⟨d.year, d.month + 1, 1, m2⟩

/-- The ClickHouse function toYYYYMM applied to a stored timestamp. -/
def toYYYYMM (d : PyDateTime) : Nat := d.year * 100 + d.month

/-- A row of the ClickHouse target table: the stored UTC timestamp and the
value of the _source_file column when that column is present in the
inserted frame. -/
structure StoredRow where
  din_instante : PyDateTime
  source_file : Option String
deriving DecidableEq, Repr

/-- A downloaded Parquet file: the set of column names present and the
list of naive (BRT) din_instante values of its rows. -/
structure ParquetFile where
  cols : List String
  rows : List PyDateTime
deriving DecidableEq, Repr

/-- Python exceptions raised by the embedded code. -/
inductive PyError where
  | valueError : String → PyError
  | nameError : String → PyError
  | columnNotFound : String → PyError
deriving DecidableEq, Repr

/-- Result of a Python call: a value or a raised exception. -/
inductive PyResult (α : Type) where
  | ok : α → PyResult α
  | error : PyError → PyResult α
deriving DecidableEq, Repr

/-- Default required columns of insert_parquet_incremental
(clickhouse_handler.py lines 83-87). -/
def defaultRequiredCols : List String :=
  ["id_subsistema", "nom_subsistema", "id_estado", "nom_estado",
   "id_ons", "ceg", "din_instante", "val_geracao"]

/-- Embedding of ClickHouseHandler.insert_parquet_incremental
(clickhouse_handler.py lines 36-141).  The state is the target table as a
list of stored rows; the result is the returned row count or the raised
exception, paired with the table after the call.  Following the source:
the numeric string-cleaning step touches only value columns and is
dropped; required columns are validated (an empty override list skips
validation, as the Python truthiness test does); din_instante is converted
from BRT to UTC; df_pandas is materialized from the converted frame BEFORE
the watermark filter and before the _source_file column is added (line
108); the filter and the emptiness check apply to the Polars frame df
(lines 113-121); the insert at line 131 passes df_pandas. -/
def insert_parquet_incremental (st : List StoredRow) (file : ParquetFile)
    (source_file : String) (max_date : Option PyDateTime)
    (required_cols : Option (List String)) : List StoredRow × PyResult Nat :=
  let required := required_cols.getD defaultRequiredCols
  let missing := required.filter (fun c => !(file.cols.contains c))
  if missing = [] then
    if file.cols.contains "din_instante" then
      let dfUtc := file.rows.map brtToUtc
      let df_pandas := dfUtc.map (fun t => StoredRow.mk t none)
      let df1 := match max_date with
        | some w => dfUtc.filter (fun t => pyLt w t)
        | none => dfUtc
      if df1.length = 0 then (st, .ok 0)
      else
        let _df_with_source := df1.map (fun t => StoredRow.mk t (some source_file))
        (st ++ df_pandas, .ok df1.length)
    else (st, .error (.columnNotFound "din_instante"))
  else (st, .error (.valueError "Colunas obrigatorias ausentes"))

/-- Watermark query of insert_clickhouse_task (backfill.py lines 104-119):
the maximum din_instante among stored rows of the given YYYYMM month,
None when the month has no rows. -/
def maxDateForMonth (st : List StoredRow) (ym : Nat) : Option PyDateTime :=
  (st.filter (fun r => toYYYYMM r.din_instante == ym)).foldl
    (fun acc r =>
      match acc with
      | none => some r.din_instante
      | some w => if pyLt w r.din_instante then some r.din_instante else some w)
    none

/-- Embedding of insert_clickhouse_task (backfill.py lines 91-133): read
the month-scoped watermark, then call insert_parquet_incremental with it
and the default required columns. -/
def insert_clickhouse_task (st : List StoredRow) (file : ParquetFile)
    (source_file : String) (year_month : Nat) : List StoredRow × PyResult Nat :=
  insert_parquet_incremental st file source_file (maxDateForMonth st year_month) none

/-- One download record of the manifest JSON (manifest.py add_month_entry):
attempt date string YYYYMMDD, md5 fingerprint, rows inserted, and the
status recorded by the caller. -/
structure DLInfo where
  download_date : String
  md5 : String
  rows_inserted : Nat
  status : String
deriving DecidableEq, Repr

/-- The per-month record of the manifest JSON: the append-only downloads
list plus the last_download and last_md5 fields maintained by
add_month_entry (manifest.py lines 67-78). -/
structure MonthRecord where
  downloads : List DLInfo
  last_download : Option String
  last_md5 : Option String
deriving DecidableEq, Repr

/-- The manifest mapping from YYYY-MM keys to month records, modelled as
an association list with unique keys (a Python dict). -/
abbrev Manifest := List (String × MonthRecord)

/-- Dict lookup self.data.get(year_month). -/
def lookupMonth : Manifest → String → Option MonthRecord
  | [], _ => none
  | (k, r) :: t, ym => if k = ym then some r else lookupMonth t ym

/-- Embedding of ManifestManager.add_month_entry (manifest.py lines
45-81): append the download record to the downloads history of the month
(creating the month record when absent) and overwrite last_download and
last_md5 with the new values. -/
def add_month_entry : Manifest → String → DLInfo → Manifest
  | [], ym, info => [(ym, ⟨[info], some info.download_date, some info.md5⟩)]
  | (k, r) :: t, ym, info =>
    if k = ym then
      (k, ⟨r.downloads ++ [info], some info.download_date, some info.md5⟩) :: t
    else (k, r) :: add_month_entry t ym info

/-- Embedding of ManifestManager.is_processed_today (manifest.py lines
83-97): true when the month has a record and its last_download equals
today.  The recorded status of the attempts is not consulted. -/
def is_processed_today (m : Manifest) (year_month today : String) : Bool :=
  match lookupMonth m year_month with
  | none => false
  | some r => decide (r.last_download = some today)

/-- Embedding of ManifestManager.detect_changes (manifest.py lines
105-127): true when the month has a record whose last_md5 is truthy (a
nonempty string) and differs from the new md5. -/
def detect_changes (m : Manifest) (year_month new_md5 : String) : Bool :=
  match lookupMonth m year_month with
  | none => false
  | some r =>
    match r.last_md5 with
    | none => false
    | some l => decide (l ≠ "" ∧ l ≠ new_md5)

/-- Outcome dict returned by process_month, restricted to the status and
rows_inserted fields the claims mention. -/
structure PMOutcome where
  status : String
  rows_inserted : Nat
deriving DecidableEq, Repr

/-- Embedding of process_month (backfill.py lines 136-195).  The Object
Store download is modelled as given: the downloaded file and its md5
fingerprint are parameters (the skip-if-exists branch of
S3Handler.download_file is not exercised by the claims).  With force
false, the same-day check via is_processed_today short-circuits the task
with a skipped outcome before any download or insert; otherwise the
month-scoped incremental insert runs and, on success, exactly one
manifest record with status success is appended via add_month_entry. -/
def process_month (st : List StoredRow) (manifest : Manifest)
    (file : ParquetFile) (md5 : String) (year_month_key : String)
    (year_month_num : Nat) (source_name : String) (download_date : String)
    (force : Bool) : PyResult (PMOutcome × Manifest × List StoredRow) :=
  if !force && is_processed_today manifest year_month_key download_date then
    .ok (⟨"skipped", 0⟩, manifest, st)
  else
    match insert_clickhouse_task st file source_name year_month_num with
    | (st2, .ok rows) =>
      let manifest2 := add_month_entry manifest year_month_key
        ⟨download_date, md5, rows, "success"⟩
      .ok (⟨"success", rows⟩, manifest2, st2)
    | (_, .error e) => .error e

/-- Zero-padded two digit decimal rendering, as the Python format 02d. -/
def pad2 (n : Nat) : String :=
  if n < 10 then "0" ++ Nat.repr n else Nat.repr n

/-- Zero-padded four digit decimal rendering, as strftime %Y. -/
def pad4 (n : Nat) : String :=
  if n < 10 then "000" ++ Nat.repr n
  else if n < 100 then "00" ++ Nat.repr n
  else if n < 1000 then "0" ++ Nat.repr n
  else Nat.repr n

/-- The strftime %Y-%m rendering of a year and month. -/
def strfYM (y m : Nat) : String := pad4 y ++ "-" ++ pad2 m

/-- Data start boundary of the solar dataset, SOLAR_DATA_START in
solar_conjunto.py line 195: April 2024. -/
def SOLAR_DATA_START : PyDateTime := ⟨2024, 4, 1, 0⟩

/-- Month index used to measure the planning loop. -/
def monthKey (d : PyDateTime) : Nat := d.year * 12 + d.month

/-- The month advancement of the planning loop (solar_conjunto.py lines
211-215): Python replace keeps the day and time fields. -/
def nextMonthDT (d : PyDateTime) : PyDateTime :=
  if d.month = 12 then { d with year := d.year + 1, month := 1 }
  else { d with month := d.month + 1 }

/-- The while loop of get_months_to_process (solar_conjunto.py lines
208-215), written with an explicit iteration bound.  The bound chosen by
get_months_to_process exceeds the number of loop iterations for every
calendar-valid input, so the unfolding agrees with the Python loop. -/
def monthsLoop : Nat → PyDateTime → PyDateTime → List String
  | 0, _, _ => []
  | fuel + 1, current, endD =>
    if pyLe current endD then
      strfYM current.year current.month :: monthsLoop fuel (nextMonthDT current) endD
    else []

/-- Embedding of get_months_to_process (solar_conjunto.py lines 183-217):
start from SOLAR_DATA_START when there is no last date or its year is
before 2020, else from the last date with the day replaced by 1 (Python
replace keeps the time of day); then collect every strftime %Y-%m while
current <= today, advancing month by month. -/
def get_months_to_process (last_date_in_db : Option PyDateTime)
    (today : PyDateTime) : List String :=
  let current := match last_date_in_db with
    | none => SOLAR_DATA_START
    | some d => if d.year < 2020 then SOLAR_DATA_START else { d with day := 1 }
  monthsLoop (monthKey today + 1 - monthKey current) current today

/-- Embedding of the end_month default of backfill_restricao (backfill.py
lines 229-234): when end_month is not given it becomes the month before
the current one, wrapping January to December of the previous year. -/
def resolve_end_month (today : PyDateTime) (end_month : Option String) : String :=
  match end_month with
  | some e => e
  | none =>
    if today.month = 1 then strfYM (today.year - 1) 12
    else strfYM today.year (today.month - 1)

/-- Calendar month before a given one; written from the words of the
spec (previous calendar month, January wrapping to December of the
previous year) to compare with resolve_end_month. -/
def prevCalendarMonth (y m : Nat) : Nat × Nat :=
  if m = 1 then (y - 1, 12) else (y, m - 1)

/-- Embedding of the period filter of backfill_restricao (backfill.py
lines 264-291).  Keys are the (year, month) pairs parsed by FILE_PATTERN
from the S3 listing (four and two digit groups); a key is planned when
its YYYYMM number lies in the inclusive start..end range and its %Y-%m
rendering differs from the current month. -/
def files_to_process (keys : List (Nat × Nat)) (start_ym end_ym : Nat)
    (current_month : String) : List (Nat × Nat) :=
  keys.filter (fun k =>
    decide (start_ym ≤ k.1 * 100 + k.2) && decide (k.1 * 100 + k.2 ≤ end_ym)
      && !(strfYM k.1 k.2 == current_month))

/-- Run summary dict of backfill_restricao (backfill.py lines 296-356). -/
structure BackfillSummary where
  success : Nat
  skipped : Nat
  errors : Nat
  total_rows : Nat
deriving DecidableEq, Repr

/-- One iteration of the period loop of backfill_restricao (backfill.py
lines 302-326): a raised error is caught and counted, a success outcome
is counted with its rows, a skipped outcome is counted as skipped. -/
def bStep (s : BackfillSummary) (o : PyResult PMOutcome) : BackfillSummary :=
  match o with
  | .error _ => { s with errors := s.errors + 1 }
  | .ok r =>
    if r.status = "success" then
      { s with success := s.success + 1, total_rows := s.total_rows + r.rows_inserted }
    else if r.status = "skipped" then { s with skipped := s.skipped + 1 }
    else s

/-- The period loop and summary of backfill_restricao, as a fold of bStep
over the per-period outcomes. -/
def backfill_run_summary (outcomes : List (PyResult PMOutcome)) : BackfillSummary :=
  outcomes.foldl bStep ⟨0, 0, 0, 0⟩

/-- Summary of daily_restricao_solar_tm (solar_conjunto.py lines
305-358): only the count of months whose task returned and the total of
their inserted rows. -/
structure SolarSummary where
  months_processed : Nat
  total_rows : Nat
deriving DecidableEq, Repr

/-- One iteration of the period loop of daily_restricao_solar_tm
(solar_conjunto.py lines 309-324): a raised error is caught, logged and
skipped with continue, without being counted anywhere; a returned result
is appended and its rows added. -/
def sStep (s : SolarSummary) (o : PyResult Nat) : SolarSummary :=
  match o with
  | .error _ => s
  | .ok rows => ⟨s.months_processed + 1, s.total_rows + rows⟩

/-- The period loop and summary of daily_restricao_solar_tm, as a fold of
sStep over the per-period outcomes. -/
def solar_run_summary (outcomes : List (PyResult Nat)) : SolarSummary :=
  outcomes.foldl sStep ⟨0, 0⟩

/-- Python name resolution for a local scope: reading a name that is not
bound raises NameError. -/
def pyName (locals : List String) (n : String) : PyResult String :=
  if locals.contains n then .ok n else .error (.nameError n)

/-- Embedding of ClickHouseHandler.insert_parquet (clickhouse_handler.py
lines 143-210).  After reading the Parquet file, line 171 evaluates
required_cols is None; unlike insert_parquet_incremental, this method has
no required_cols parameter and binds no such local, so the read raises
NameError before any insert.  The bound names of the scope at line 171
are listed explicitly; the ok continuation is unreachable. -/
def insert_parquet (st : List StoredRow) (file : ParquetFile)
    (source_file : String) : List StoredRow × PyResult Nat :=
  let rows_before := file.rows.length
  match pyName ["self", "parquet_path", "table", "source_file", "df", "rows_before"]
      "required_cols" with
  | .error e => (st, .error e)
  | .ok _ => (st ++ file.rows.map (fun t => StoredRow.mk (brtToUtc t) (some source_file)),
      .ok rows_before)

/-! ## Claim theorems -/

/-- Concrete month file for claim C1: two rows, 2024-03-10 00:00 and
2024-03-20 00:00 naive BRT, with all default required columns present. -/
def c1file : ParquetFile := ⟨defaultRequiredCols, [⟨2024, 3, 10, 0⟩, ⟨2024, 3, 20, 0⟩]⟩

/-- Claim C1 (code bug): with watermark 2024-03-15 00:00 UTC, only the
second row is strictly newer, and the loader reports 1 row inserted, yet
the table receives BOTH rows of the file, including the row
2024-03-10 03:00 UTC which is not after the watermark: df_pandas is
materialized before the watermark filter and is what insert_df receives,
so the bulk insert is not the watermark-filtered row set. -/
theorem c1_inserts_rows_below_watermark :
    insert_parquet_incremental [] c1file "RESTRICAO_COFF_EOLICA_2024_03.parquet"
      (some ⟨2024, 3, 15, 0⟩) none
      = ([⟨⟨2024, 3, 10, 180⟩, none⟩, ⟨⟨2024, 3, 20, 180⟩, none⟩], .ok 1)
    ∧ pyLt ⟨2024, 3, 15, 0⟩ ⟨2024, 3, 10, 180⟩ = false := by
  decide

/-- Concrete month file for claim C2: one row at 2024-03-31 23:00 naive
BRT, whose UTC image 2024-04-01 02:00 falls in the next calendar month. -/
def c2file : ParquetFile := ⟨defaultRequiredCols, [⟨2024, 3, 31, 1380⟩]⟩

/-- Claim C2 (code bug): the first run over month 202403 of an empty
table inserts the row as 2024-04-01 02:00 UTC; the second, identical run
reads the month-scoped watermark max(din_instante) where
toYYYYMM = 202403, which misses the stored row (its UTC month is 202404),
so it is NULL again, and the unchanged file is re-inserted: the second
invocation returns 1, not 0, and the table holds the row twice. -/
theorem c2_second_run_reinserts :
    insert_clickhouse_task [] c2file "RESTRICAO_COFF_EOLICA_2024_03.parquet" 202403
      = ([⟨⟨2024, 4, 1, 120⟩, none⟩], .ok 1)
    ∧ insert_clickhouse_task [⟨⟨2024, 4, 1, 120⟩, none⟩] c2file
        "RESTRICAO_COFF_EOLICA_2024_03.parquet" 202403
      = ([⟨⟨2024, 4, 1, 120⟩, none⟩, ⟨⟨2024, 4, 1, 120⟩, none⟩], .ok 1) := by
  decide

/-- Concrete month file for claim C4: one row at 2024-05-01 10:00 BRT. -/
def c4file : ParquetFile := ⟨defaultRequiredCols, [⟨2024, 5, 1, 600⟩]⟩

/-- Claim C4 (code bug): the loader reports a successful insert of one
row, but every row the table receives has no _source_file value: the
provenance column is added to the filtered Polars frame df at line 124
while the insert at line 131 passes df_pandas, which was materialized
without that column. -/
theorem c4_inserted_rows_lack_provenance :
    ((insert_parquet_incremental [] c4file
        "RESTRICAO_COFF_FOTOVOLTAICA_2024_05_20240601.parquet" none none).1.map
        StoredRow.source_file = [none])
    ∧ (insert_parquet_incremental [] c4file
        "RESTRICAO_COFF_FOTOVOLTAICA_2024_05_20240601.parquet" none none).2 = .ok 1 := by
  decide

/-- Claim C6 (code bug): with the last stored timestamp
2024-06-30 10:30 and now 2024-07-01 05:00, the planner returns only
2024-06 and drops the current month 2024-07: replace(day=1) keeps the
time of day of the watermark, so the July probe 2024-07-01 10:30 compares
greater than now and the loop stops before emitting July. -/
theorem c6_current_month_dropped_on_day_one :
    get_months_to_process (some ⟨2024, 6, 30, 630⟩) ⟨2024, 7, 1, 300⟩ = ["2024-06"]
    ∧ strfYM 2024 7 ∉ get_months_to_process (some ⟨2024, 6, 30, 630⟩) ⟨2024, 7, 1, 300⟩ := by
  decide

/-- Claim C10: every call of the full loader insert_parquet resolves the
name required_cols, which is bound nowhere in its scope, so it raises
NameError before reaching the insert and leaves the table unchanged. -/
theorem c10_insert_parquet_always_name_error :
    ∀ (st : List StoredRow) (file : ParquetFile) (source_file : String),
      insert_parquet st file source_file = (st, .error (.nameError "required_cols")) := by
  intro st file source_file
  rfl

/-- Number of caught exceptions among per-period outcomes. -/
def countErrorsP {α : Type} : List (PyResult α) → Nat
  | [] => 0
  | .error _ :: t => countErrorsP t + 1
  | .ok _ :: t => countErrorsP t

/-- Number of success outcomes among per-period outcomes. -/
def countSuccess : List (PyResult PMOutcome) → Nat
  | [] => 0
  | .error _ :: t => countSuccess t
  | .ok r :: t => (if r.status = "success" then 1 else 0) + countSuccess t

/-- Number of skipped outcomes among per-period outcomes. -/
def countSkipped : List (PyResult PMOutcome) → Nat
  | [] => 0
  | .error _ :: t => countSkipped t
  | .ok r :: t => (if r.status = "skipped" then 1 else 0) + countSkipped t

/-- Total rows of the success outcomes. -/
def sumRows : List (PyResult PMOutcome) → Nat
  | [] => 0
  | .error _ :: t => sumRows t
  | .ok r :: t => (if r.status = "success" then r.rows_inserted else 0) + sumRows t

/-- Number of outcomes that returned without raising. -/
def countOkP {α : Type} : List (PyResult α) → Nat
  | [] => 0
  | .error _ :: t => countOkP t
  | .ok _ :: t => countOkP t + 1

/-- Total of the returned row counts. -/
def sumOk : List (PyResult Nat) → Nat
  | [] => 0
  | .error _ :: t => sumOk t
  | .ok n :: t => sumOk t + n

lemma bfold_errors (l : List (PyResult PMOutcome)) :
    ∀ acc, (l.foldl bStep acc).errors = acc.errors + countErrorsP l := by
  induction l with
  | nil => intro acc; simp [countErrorsP]
  | cons h t ih =>
    intro acc
    cases h with
    | error e => simp [bStep, countErrorsP, ih]; omega
    | ok r =>
      simp only [List.foldl_cons, bStep, countErrorsP]
      by_cases hs : r.status = "success"
      · simp [hs, ih]
      · by_cases hk : r.status = "skipped" <;> simp [hs, hk, ih]

lemma bfold_success (l : List (PyResult PMOutcome)) :
    ∀ acc, (l.foldl bStep acc).success = acc.success + countSuccess l := by
  induction l with
  | nil => intro acc; simp [countSuccess]
  | cons h t ih =>
    intro acc
    cases h with
    | error e => simp [bStep, countSuccess, ih]
    | ok r =>
      simp only [List.foldl_cons, bStep, countSuccess]
      by_cases hs : r.status = "success"
      · simp [hs, ih]; omega
      · by_cases hk : r.status = "skipped" <;> simp [hs, hk, ih]

lemma bfold_skipped (l : List (PyResult PMOutcome)) :
    ∀ acc, (l.foldl bStep acc).skipped = acc.skipped + countSkipped l := by
  induction l with
  | nil => intro acc; simp [countSkipped]
  | cons h t ih =>
    intro acc
    cases h with
    | error e => simp [bStep, countSkipped, ih]
    | ok r =>
      simp only [List.foldl_cons, bStep, countSkipped]
      by_cases hs : r.status = "success"
      · simp [hs, ih]
      · by_cases hk : r.status = "skipped"
        · simp [hs, hk, ih]; omega
        · simp [hs, hk, ih]

lemma bfold_rows (l : List (PyResult PMOutcome)) :
    ∀ acc, (l.foldl bStep acc).total_rows = acc.total_rows + sumRows l := by
  induction l with
  | nil => intro acc; simp [sumRows]
  | cons h t ih =>
    intro acc
    cases h with
    | error e => simp [bStep, sumRows, ih]
    | ok r =>
      simp only [List.foldl_cons, bStep, sumRows]
      by_cases hs : r.status = "success"
      · simp [hs, ih]; omega
      · by_cases hk : r.status = "skipped" <;> simp [hs, hk, ih]

lemma sfold (l : List (PyResult Nat)) :
    ∀ acc, l.foldl sStep acc
      = ⟨acc.months_processed + countOkP l, acc.total_rows + sumOk l⟩ := by
  induction l with
  | nil => intro acc; simp [countOkP, sumOk]
  | cons h t ih =>
    intro acc
    cases h with
    | error e => simp [sStep, countOkP, sumOk, ih]
    | ok n =>
      simp only [List.foldl_cons, sStep, countOkP, sumOk, ih]
      congr 1 <;> omega

/-- Claim C9 (counterexample): a daily solar run whose first planned
month raises keeps going and processes the remaining months, but its
summary holds only months_processed = 2 and total_rows = 12, and no
component of it equals the failure count 1: the solar flow neither counts
failures nor reports them. -/
theorem c9_counterexample_solar_summary_lacks_failures :
    solar_run_summary [.error (.valueError "boom"), .ok 5, .ok 7] = ⟨2, 12⟩
    ∧ countErrorsP [(.error (.valueError "boom") : PyResult Nat), .ok 5, .ok 7] = 1
    ∧ (solar_run_summary [.error (.valueError "boom"), .ok 5, .ok 7]).months_processed ≠ 1
    ∧ (solar_run_summary [.error (.valueError "boom"), .ok 5, .ok 7]).total_rows ≠ 1 := by
  decide

/-- Claim C9 (amended): in both flows a period error is caught and the
loop continues, so every other period is still processed and counted: the
backfill summary counts exactly the raised errors in its errors field and
still counts every success, skip and inserted row; the daily solar
summary counts every month that returned and its rows, unaffected by
interleaved failures, but carries no failure count. -/
theorem c9_partial_failure_isolation_amended :
    ∀ (outcomes : List (PyResult PMOutcome)) (sOuts : List (PyResult Nat)),
      (backfill_run_summary outcomes).errors = countErrorsP outcomes
      ∧ (backfill_run_summary outcomes).success = countSuccess outcomes
      ∧ (backfill_run_summary outcomes).skipped = countSkipped outcomes
      ∧ (backfill_run_summary outcomes).total_rows = sumRows outcomes
      ∧ (solar_run_summary sOuts).months_processed = countOkP sOuts
      ∧ (solar_run_summary sOuts).total_rows = sumOk sOuts := by
  intro outcomes sOuts
  refine ⟨?_, ?_, ?_, ?_, ?_, ?_⟩
  · simpa using bfold_errors outcomes ⟨0, 0, 0, 0⟩
  · simpa using bfold_success outcomes ⟨0, 0, 0, 0⟩
  · simpa using bfold_skipped outcomes ⟨0, 0, 0, 0⟩
  · simpa using bfold_rows outcomes ⟨0, 0, 0, 0⟩
  · simp [solar_run_summary, sfold]
  · simp [solar_run_summary, sfold]

/-- Claim C8: whenever the required columns are present and no normalized
timestamp of the file is strictly newer than the watermark, the loader
returns 0 as a plain success value and leaves the table untouched: the
emptiness check at lines 119-121 returns before the insert at line 131
is reached. -/
theorem c8_empty_filter_is_success
    (st : List StoredRow) (file : ParquetFile) (src : String) (w : PyDateTime)
    (rc : Option (List String))
    (hmiss : (rc.getD defaultRequiredCols).filter (fun c => !(file.cols.contains c)) = [])
    (hdin : file.cols.contains "din_instante" = true)
    (hempty : (file.rows.map brtToUtc).filter (fun t => pyLt w t) = []) :
    insert_parquet_incremental st file src (some w) rc = (st, .ok 0) := by
  have hmiss2 : ∀ a ∈ rc.getD defaultRequiredCols, a ∈ file.cols := by
    intro a ha
    by_contra hc
    have hmem : a ∈ (rc.getD defaultRequiredCols).filter (fun c => !(file.cols.contains c)) := by
      simp [List.mem_filter, ha, hc]
    rw [hmiss] at hmem
    exact absurd hmem (List.not_mem_nil a)
  have hdin2 : "din_instante" ∈ file.cols := by simpa using hdin
  unfold insert_parquet_incremental
  simp [hdin2, hempty]
  exact hmiss2

/-- Concrete month file for the C8 witness: a single row at
2024-03-10 00:00 BRT, equal after conversion to the watermark. -/
def c8file : ParquetFile := ⟨defaultRequiredCols, [⟨2024, 3, 10, 0⟩]⟩

/-- Witness for claim C8 at a concrete input: the watermark equals the
single normalized timestamp, the filtered set is empty, and the call
returns 0 with the table unchanged. -/
theorem c8_empty_filter_witness :
    insert_parquet_incremental [] c8file "RESTRICAO_COFF_EOLICA_2024_03.parquet"
      (some ⟨2024, 3, 10, 180⟩) none = ([], .ok 0) :=
  c8_empty_filter_is_success [] c8file "RESTRICAO_COFF_EOLICA_2024_03.parquet"
    ⟨2024, 3, 10, 180⟩ none (by decide) (by decide) (by decide)

/-- Concrete manifest for claim C3: month 2024-03 was ingested today
(20240315) with fingerprint aaa. -/
def c3manifest : Manifest :=
  [("2024-03", ⟨[⟨"20240315", "aaa", 10, "success"⟩], some "20240315", some "aaa"⟩)]

/-- Concrete month file for claim C3. -/
def c3file : ParquetFile := ⟨defaultRequiredCols, [⟨2024, 3, 10, 0⟩]⟩

/-- Claim C3 (counterexample): the fresh fingerprint bbb differs from the
recorded aaa, so detect_changes would report a change, but no pipeline
calls it; process_month with force false hits the same-day skip first and
returns skipped without downloading or inserting anything: the changed
period is NOT re-ingested and the manifest and table are unchanged. -/
theorem c3_counterexample_skip_beats_fingerprint :
    detect_changes c3manifest "2024-03" "bbb" = true
    ∧ process_month [] c3manifest c3file "bbb" "2024-03" 202403
        "RESTRICAO_COFF_EOLICA_2024_03.parquet" "20240315" false
      = .ok (⟨"skipped", 0⟩, c3manifest, []) := by
  decide

/-- Claim C3 (amended): detect_changes does recognize a changed
fingerprint (nonempty recorded md5 differing from the new one), but it is
invoked by no pipeline; whenever the same-day skip applies (force false
and last_download equal to the run date), process_month returns skipped
with the manifest and table unchanged, for every new fingerprint, so a
content change never triggers same-day re-ingestion; re-ingestion of a
changed period happens only on a later day, when is_processed_today is
false again. -/
theorem c3_change_detection_amended
    (m : Manifest) (ym new_md5 l : String) (r : MonthRecord)
    (st : List StoredRow) (file : ParquetFile) (ymNum : Nat) (src dd : String)
    (hlook : lookupMonth m ym = some r)
    (hmd : r.last_md5 = some l) (hne : l ≠ "") (hdiff : l ≠ new_md5)
    (htoday : r.last_download = some dd) :
    detect_changes m ym new_md5 = true
    ∧ process_month st m file new_md5 ym ymNum src dd false
      = .ok (⟨"skipped", 0⟩, m, st) := by
  constructor
  · simp [detect_changes, hlook, hmd, hne, hdiff]
  · simp [process_month, is_processed_today, hlook, htoday]

/-- Witness for claim C3 at a concrete input. -/
theorem c3_change_detection_witness :
    detect_changes c3manifest "2024-03" "ccc" = true
    ∧ process_month [] c3manifest c3file "ccc" "2024-03" 202403
        "RESTRICAO_COFF_EOLICA_2024_03.parquet" "20240315" false
      = .ok (⟨"skipped", 0⟩, c3manifest, []) :=
  c3_change_detection_amended c3manifest "2024-03" "ccc" "aaa"
    ⟨[⟨"20240315", "aaa", 10, "success"⟩], some "20240315", some "aaa"⟩
    [] c3file 202403 "RESTRICAO_COFF_EOLICA_2024_03.parquet" "20240315"
    (by decide) (by decide) (by decide) (by decide) (by decide)

/-- A manifest entry for the period whose attempt date is today and whose
recorded outcome was success; written from the words of the claim, to be
compared with is_processed_today. -/
def existsSuccessToday (m : Manifest) (ym today : String) : Bool :=
  match lookupMonth m ym with
  | none => false
  | some r => r.downloads.any (fun e => e.download_date == today && e.status == "success")

/-- Concrete manifest for claim C5: the only attempt for 2024-03 was made
today but its recorded status is error. -/
def c5manifest : Manifest :=
  [("2024-03", ⟨[⟨"20240315", "abc", 0, "error"⟩], some "20240315", some "abc"⟩)]

/-- Claim C5 (counterexample): is_processed_today answers true for a
manifest whose only attempt today has recorded outcome error: the
claimed iff with an existing successful same-day entry fails, because the
function never consults the recorded outcome. -/
theorem c5_counterexample_outcome_not_checked :
    is_processed_today c5manifest "2024-03" "20240315" = true
    ∧ existsSuccessToday c5manifest "2024-03" "20240315" = false := by
  decide

/-- Claim C5 (amended): is_processed_today returns true exactly when the
period has a month record whose last_download field (the date of the most
recent recorded attempt) equals today; the recorded outcome is not
consulted.  On a later day last_download differs from today, so the check
is false and the period is re-attempted; the claimed form agrees with
this one on manifests written by the backfill itself, which records an
attempt only after a successful insert. -/
theorem c5_skip_iff_last_download_today (m : Manifest) (ym today : String) :
    is_processed_today m ym today = true ↔
      ∃ r, lookupMonth m ym = some r ∧ r.last_download = some today := by
  unfold is_processed_today
  cases h : lookupMonth m ym <;> simp [h]

/-- Claim C7: when end_month is not given, backfill_restricao resolves it
to the previous calendar month (January wrapping to December of the
previous year: the resolved pair sits exactly one month before the
current one), and every key kept by the period filter renders to a
%Y-%m string different from the current month, whatever explicit range
was requested. -/
theorem c7_backfill_excludes_current_month
    (today : PyDateTime) (keys : List (Nat × Nat)) (start_ym end_ym : Nat)
    (hy : 1 ≤ today.year) (hm1 : 1 ≤ today.month) (hm12 : today.month ≤ 12) :
    resolve_end_month today none
      = strfYM (prevCalendarMonth today.year today.month).1
          (prevCalendarMonth today.year today.month).2
    ∧ (prevCalendarMonth today.year today.month).1 * 12
        + (prevCalendarMonth today.year today.month).2 + 1
      = today.year * 12 + today.month
    ∧ ∀ k ∈ files_to_process keys start_ym end_ym (strfYM today.year today.month),
        strfYM k.1 k.2 ≠ strfYM today.year today.month := by
  refine ⟨?_, ?_, ?_⟩
  · simp only [resolve_end_month, prevCalendarMonth]
    split_ifs <;> rfl
  · simp only [prevCalendarMonth]
    split_ifs with h <;> omega
  · intro k hk
    simp only [files_to_process, List.mem_filter, Bool.and_eq_true, decide_eq_true_eq,
      Bool.not_eq_true', beq_eq_false_iff_ne, ne_eq] at hk
    exact hk.2.2

/-- Witness for claim C7 at the concrete input of the spec example: now
is 2024-07-15, the default end month resolves to 2024-06, and the key
(2024, 7) of the listing is not planned. -/
theorem c7_backfill_witness :
    resolve_end_month ⟨2024, 7, 15, 0⟩ none
      = strfYM (prevCalendarMonth 2024 7).1 (prevCalendarMonth 2024 7).2
    ∧ (prevCalendarMonth 2024 7).1 * 12 + (prevCalendarMonth 2024 7).2 + 1 = 2024 * 12 + 7
    ∧ ∀ k ∈ files_to_process [(2024, 6), (2024, 7)] 202401 202412 (strfYM 2024 7),
        strfYM k.1 k.2 ≠ strfYM 2024 7 :=
  c7_backfill_excludes_current_month ⟨2024, 7, 15, 0⟩ [(2024, 6), (2024, 7)] 202401 202412
    (by decide) (by decide) (by decide)
